import Mathlib

/-!
Verification development for the turn-based simulated-dialogue backend
(turn controller, disclosure policy, allowed-fact selector, guardrail
validator, tool-precheck router, turn-persistence protocol).

Shallow embedding conventions:
* Python `int` is modelled as `Int` (chunk attributes, visit numbers,
  policy inputs); turn indices, which the code only ever derives from
  non-negative stored counters (`turn_no` is written as `0` or as a
  previous `patient_turn_no`), are modelled as `Nat`.
* Python sets used only for membership are modelled as `List` with
  membership.
* Python `None`/empty-string falsiness for optional strings is modelled
  by `""` (the code treats the two identically via `if not x`).
* The model is per-session: the repository layer keys every row by
  `session_id`; fixing one session, those keys are dropped.
* The regex matchers of `graph.py` (`_looks_like_test_request`,
  `_looks_like_exam_request`, `_looks_like_medicine_request`,
  `_looks_like_followup_request`) and the diagnosis-redaction regex of
  `guardrails.strip_unsafe_mentions` are character-level pattern engines;
  they are abstracted as Boolean classification inputs (resp. an optional
  substitution function `diagSub`, where `none` means "no match" and
  `some t` means "the substituted text is `t`").  No claim below depends
  on the internals of those patterns.
* Write-only telemetry fields (`llm_usage`, `raw_llm_output`,
  `retrieved_context`, message `meta` — which `MessageRepo.append`
  drops anyway) are omitted from the state model.
-/

/-! ## Data model: fact units ("chunks") and prompt facts -/

/-- One immutable case fact unit (`chunk`), as consumed by
`prompting.build_allowed_facts` and `graph.persist_turn`
(fields `chunk_id`, `visit_no`, `stage`, `kind`, `detail_depth`,
`content`; the `tags` attribute is unused by the modelled code). -/
structure Chunk where
  chunk_id : String
  visit_no : Int
  stage : Int
  kind : String
  detail_depth : Int
  content : String
deriving DecidableEq, Repr

/-- One `(id, kind, text)` entry of the allowed-fact list handed to the
generative collaborator (the dicts built in `build_allowed_facts`). -/
structure PromptFact where
  id : String
  kind : String
  text : String
deriving DecidableEq, Repr

/-! ## Disclosure policy (`policy.py`) -/

/-- Source: `policy.max_detail_depth`.  Level is ignored; the visit
number is clamped below by 1 (`max(1, int(visit_no))`). -/
def max_detail_depth (level : Int) (visit_no : Int) : Int :=
  let v := max 1 visit_no
  if v = 1 then 1
  else if v = 2 then 2
  else 3

/-- Source: `policy.max_visits`.  The level is clamped below by 0. -/
def max_visits (level : Int) : Int :=
  let l := max 0 level
  if l ≤ 1 then 2
  else if l = 2 then 3
  else if l = 3 then 4
  else 5

/-- Source: `policy.allowed_tools`.  The Python set is modelled as a
list used only through membership. -/
def allowed_tools (level : Int) (visit_no : Int) : List String :=
  let v := max 1 visit_no
  let allowed := ["history", "exam"]
  if v ≥ 2 then allowed ++ ["tests"] else allowed

/-! ## Guardrails (`guardrails.py`) -/

/-- The structured collaborator output (`llm_models.PatientResponse`). -/
structure PatientResponse where
  patient_utterance : String
  new_disclosed_fact_ids : List String
  requested_clarifications : Option (List String)
  visit_end_recommendation : Bool
  safety_flags : List String
deriving DecidableEq, Repr

/-- Python `mode.startswith(p)` (`String.startsWith` is not
kernel-reducible, so the check is modelled on the character lists). -/
def starts_with (s p : String) : Bool := p.data.isPrefixOf s.data

/-- Result record of `guardrails.apply_guardrails`
(`guardrails.GuardrailDecision`). -/
structure GuardrailDecision where
  patient_utterance : String
  new_disclosed_fact_ids : List String
  safety_flags : List String
  rejected : Bool
deriving DecidableEq, Repr

/-- Source: `guardrails.validate_fact_ids`.  Returns `(safe_ids, flags)`:
each proposed id is kept only when it is in `allowed_ids` and not in
`already_disclosed_ids`; otherwise a flag is appended. -/
def validate_fact_ids (proposed_ids allowed_ids already_disclosed_ids : List String) :
    List String × List String :=
  match proposed_ids with
  | [] => ([], [])
  | fid :: rest =>
    let sub := validate_fact_ids rest allowed_ids already_disclosed_ids
    if fid ∉ allowed_ids then (sub.1, "fact_id_not_allowed" :: sub.2)
    else if fid ∈ already_disclosed_ids then (sub.1, "fact_id_repeated" :: sub.2)
    else (fid :: sub.1, sub.2)

/-- Python `str.strip()` — drop leading and trailing whitespace
(modelled on the character list; `String.trim` itself is not
kernel-reducible). -/
def py_strip (s : String) : String :=
  String.mk (((s.data.dropWhile Char.isWhitespace).reverse.dropWhile
    Char.isWhitespace).reverse)

/-- Python `str.rstrip()` — drop trailing whitespace. -/
def py_rstrip (s : String) : String :=
  String.mk ((s.data.reverse.dropWhile Char.isWhitespace).reverse)

/-- Source: `guardrails.strip_unsafe_mentions`.  The diagnosis-pattern
regex is abstracted as `diagSub` (see file header); the trimming, the
redaction flag, and the safe-fallback replacement of an empty or fully
redacted utterance follow the source. -/
def strip_unsafe_mentions (diagSub : String → Option String) (text : String) :
    String × List String :=
  let t := py_strip text
  let (t, flags) :=
    match diagSub t with
    | some t2 => (t2, ["utterance_redacted_possible_dx"])
    | none => (t, ([] : List String))
  if t = "" ∨ t = "[redacted]" then
    ("I can share what I’m experiencing, but I’m not sure about specifics beyond what we’ve discussed.",
      flags ++ ["utterance_replaced_safe_fallback"])
  else (t, flags)

/-- Source: `guardrails.apply_guardrails`.  The proposed ids are always
hard-filtered through `validate_fact_ids`; in a mode starting with
`reject_once` a disallowed id additionally marks the decision
`rejected`. -/
def apply_guardrails (diagSub : String → Option String) (resp : PatientResponse)
    (allowed_facts : List PromptFact) (already_disclosed_fact_ids : List String)
    (mode : String) : GuardrailDecision :=
  let allowed_ids := allowed_facts.map (fun f => f.id)
  let vres := validate_fact_ids resp.new_disclosed_fact_ids allowed_ids already_disclosed_fact_ids
  let safe_ids := vres.1
  let id_flags := vres.2
  let safety_flags := resp.safety_flags ++ id_flags
  let ures := strip_unsafe_mentions diagSub resp.patient_utterance
  let utterance := ures.1
  let safety_flags := safety_flags ++ ures.2
  let tried_disallowed := "fact_id_not_allowed" ∈ id_flags
  if tried_disallowed ∧ starts_with mode ("reject_once") then
    { patient_utterance := utterance
      new_disclosed_fact_ids := safe_ids
      safety_flags := safety_flags ++ ["guardrail_reject_regenerate"]
      rejected := true }
  else
    { patient_utterance := utterance
      new_disclosed_fact_ids := safe_ids
      safety_flags := safety_flags
      rejected := false }

/-! ## Allowed-fact selector (`prompting.build_allowed_facts`) -/

/-- Sort key of `prompting.build_allowed_facts`: the Python `sorted` key
`(int(visit_no), int(stage), str(chunk_id))` compared lexicographically
(string comparison is by code points in both languages). -/
def chunk_key_le (a b : Chunk) : Prop :=
  a.visit_no < b.visit_no ∨ (a.visit_no = b.visit_no ∧
    (a.stage < b.stage ∨ (a.stage = b.stage ∧ a.chunk_id ≤ b.chunk_id)))

instance chunk_key_le_dec : DecidableRel chunk_key_le := fun a b =>
  inferInstanceAs (Decidable (a.visit_no < b.visit_no ∨ (a.visit_no = b.visit_no ∧
    (a.stage < b.stage ∨ (a.stage = b.stage ∧ a.chunk_id ≤ b.chunk_id)))))

/-- The `{"id": cid, "kind": kind, "text": content}` dict appended by
`build_allowed_facts`. -/
def fact_of_chunk (ch : Chunk) : PromptFact :=
  { id := ch.chunk_id, kind := ch.kind, text := ch.content }

/-- Conjunction of the skip conditions of the `build_allowed_facts`
loop: a chunk is kept iff its id is non-empty (`if not cid`), not yet
disclosed, its visit equals the current visit, its depth is within the
policy bound, and its kind is not gated out by the unlocked tools. -/
def chunk_passes (level visit_no : Int) (disclosed : List String) (ch : Chunk) : Bool :=
  let max_depth := max_detail_depth level visit_no
  let tools := allowed_tools level visit_no
  decide (ch.chunk_id ≠ "" ∧ ch.chunk_id ∉ disclosed ∧ ch.visit_no = visit_no ∧
    ch.detail_depth ≤ max_depth ∧
    ¬(ch.kind = "exam" ∧ "exam" ∉ tools) ∧ ¬(ch.kind = "tests" ∧ "tests" ∉ tools))

/-- The `for ch in sorted_chunks` accumulation loop of
`build_allowed_facts`, with its post-append cap check
(`if len(facts) >= max_facts: break`). -/
def facts_loop (level visit_no : Int) (disclosed : List String) (max_facts : Int) :
    List Chunk → List PromptFact → List PromptFact
  | [], facts => facts
  | ch :: rest, facts =>
    if chunk_passes level visit_no disclosed ch then
      let facts2 := facts ++ [fact_of_chunk ch]
      if (facts2.length : Int) ≥ max_facts then facts2
      else facts_loop level visit_no disclosed max_facts rest facts2
    else facts_loop level visit_no disclosed max_facts rest facts

/-- Source: `prompting.build_allowed_facts` (`case_doc["chunks"]` is
passed as the chunk list; Python `sorted` is a stable sort, modelled by
the stable `List.insertionSort` — any two stable sorts by the same
total preorder agree). -/
def build_allowed_facts (case_chunks : List Chunk) (level visit_no : Int)
    (disclosed_fact_ids : List String) (max_facts : Int) : List PromptFact :=
  let sorted_chunks := case_chunks.insertionSort chunk_key_le
  facts_loop level visit_no disclosed_fact_ids max_facts sorted_chunks []

/-- Modelled from the spec: the filter list of §4.2 and nothing more —
`fact.visit == current visit`, `fact.detail_depth ≤ maxDepth`,
`fact.kind` not gated out by `unlockedToolKinds`, `fact.id` not in the
disclosed set.  The spec's list has no condition on empty ids; the
code's loop carries an additional `if not cid` guard (see the C4
counterexample). -/
def chunk_passes_spec (level visit_no : Int) (disclosed : List String) (ch : Chunk) : Bool :=
  let max_depth := max_detail_depth level visit_no
  let tools := allowed_tools level visit_no
  decide (ch.visit_no = visit_no ∧ ch.detail_depth ≤ max_depth ∧
    ¬(ch.kind = "exam" ∧ "exam" ∉ tools) ∧ ¬(ch.kind = "tests" ∧ "tests" ∉ tools) ∧
    ch.chunk_id ∉ disclosed)

/-- Modelled from the spec (§4.2), for the refinement comparison of C4:
"ordered list of `(id, kind, text)` capped at `K`, sorted by
(visit number asc, stage asc, id asc), filtered to ..." — sort, filter
with the spec's filter list, take `K`, project. -/
def allowed_facts_spec (case_chunks : List Chunk) (level visit_no : Int)
    (disclosed_fact_ids : List String) (max_facts : Int) : List PromptFact :=
  ((((case_chunks.insertionSort chunk_key_le).filter
      (chunk_passes_spec level visit_no disclosed_fact_ids)).take
        max_facts.toNat).map fact_of_chunk)

/-! ## Graph state (`graph_state.GraphState`) and text helpers of `graph.py` -/

/-- The runtime snapshot threaded through the pipeline
(`graph_state.GraphState`), restricted to the fields the modelled nodes
read or write (identity fields and telemetry fields omitted, see file
header). -/
structure GraphState where
  case_type : String
  visit_number : Int
  turn_in_visit : Nat
  doctor_turn_no : Option Nat
  disclosed_fact_ids : List String
  performed_exams : List String
  performed_tests : List String
  last_doctor_message : String
  doctor_level : Int
  allowed_facts : List PromptFact
  patient_core_response : String
  patient_utterance : String
  response_source : String
  new_disclosed_fact_ids : List String
  safety_flags : List String
  visit_end_recommendation : Bool
  requested_clarifications : Option (List String)
  llm_attempts : Nat
  should_end_visit : Bool
  guardrail_rejected : Bool
  should_call_llm : Bool
deriving DecidableEq, Repr

/-- Lower-cased character sequence of a string (Python `str.lower()`;
the texts involved are ASCII, where `Char.toLower` agrees). -/
def lower_chars (s : String) : List Char := s.data.map Char.toLower

/-- Substring test (Python `needle in haystack` on character lists). -/
def contains_sub (needle : List Char) : List Char → Bool
  | [] => needle.isEmpty
  | c :: rest => needle.isPrefixOf (c :: rest) || contains_sub needle rest

/-- Python `needle in s.lower()`, as used by the viral-case branch of
`graph.validate_response` with needle `"thank"`. -/
def contains_lower (needle : String) (s : String) : Bool :=
  contains_sub needle.data (lower_chars s)

/-- Source: `graph._is_viral_case`
(`case_type and case_type.strip().lower().startswith("viral")`). -/
def is_viral_case (case_type : String) : Bool :=
  case_type ≠ "" && ("viral".data.isPrefixOf (lower_chars (py_strip case_type)))

/-- Sentence count of `graph._append_thanks`: the number of segments of
`re.split(r"[.!?]+", text)` with non-blank content (a maximal delimiter
run contributes only empty segments, which are filtered out either
way). -/
def sentence_count (text : String) : Nat :=
  ((List.splitOnP (fun c => c = '.' || c = '!' || c = '?') text.data).filter
    (fun seg => seg.any (fun c => !c.isWhitespace))).length

/-- Source: `graph._append_thanks` — append `" Thanks."` to the
right-stripped text unless it already has at least three sentences. -/
def append_thanks (text : String) : String :=
  if sentence_count text ≥ 3 then text
  else py_rstrip text ++ " Thanks."

/-! ## Tool precheck (`graph.tool_precheck` and the fixed responses) -/

/-- Source: `graph._apply_test_tool_response`. -/
def apply_test_tool_response (st : GraphState) (allowed : Bool) : GraphState :=
  { st with
    patient_utterance :=
      if allowed then ("OK, I\x27ll get that test ordered and will get back with the results.")
      else ("I\x27m sorry, that test isn\x27t permitted right now."),
    new_disclosed_fact_ids := [],
    requested_clarifications := none,
    visit_end_recommendation := false,
    should_end_visit := false }

/-- Source: `graph._apply_exam_tool_response`. -/
def apply_exam_tool_response (st : GraphState) (allowed : Bool) : GraphState :=
  { st with
    patient_utterance :=
      if allowed then ("OK, we can do that exam now.")
      else ("I\x27m sorry, that exam isn\x27t available right now."),
    new_disclosed_fact_ids := [],
    requested_clarifications := none,
    visit_end_recommendation := false,
    should_end_visit := false }

/-- Source: `graph._apply_medicine_tool_response`. -/
def apply_medicine_tool_response (st : GraphState) : GraphState :=
  { st with
    patient_utterance := "I\x27m not able to discuss medications or prescriptions right now.",
    new_disclosed_fact_ids := [],
    requested_clarifications := none,
    visit_end_recommendation := false,
    should_end_visit := false }

/-- Tail of `graph.tool_precheck` for a handled request: tool-kind
gating against `allowed_tools`, availability of a fact of that kind
(rebuilding the allowed facts from the case when the cached list is
empty), the fixed response, and the bookkeeping reset
(`should_call_llm = False`, cleared attempt counters and flags). -/
def tool_precheck_finish (kind : Option String) (case_doc : Option (List Chunk))
    (k_facts : Int) (st : GraphState) : GraphState :=
  let st1 :=
    match kind with
    | some k =>
      let tool_set := allowed_tools st.doctor_level st.visit_number
      let allowed :=
        if k ∈ tool_set then
          let facts :=
            if st.allowed_facts = [] then
              match case_doc with
              | some chunks =>
                build_allowed_facts chunks st.doctor_level st.visit_number
                  st.disclosed_fact_ids k_facts
              | none => st.allowed_facts
            else st.allowed_facts
          facts.any (fun f => f.kind = k)
        else false
      if k = "tests" then apply_test_tool_response st allowed
      else if k = "exam" then apply_exam_tool_response st allowed
      else st
    | none => apply_medicine_tool_response st
  { st1 with
    patient_core_response := st1.patient_utterance,
    response_source := "tool",
    should_call_llm := false,
    llm_attempts := 0,
    guardrail_rejected := false,
    safety_flags := [] }

/-- Source: `graph.tool_precheck`.  The three regex families are
abstracted as the Booleans `is_test`/`is_exam`/`is_med` (priority order
tests, exam, medication as in the source); a medication request on a
viral case falls through to the generative path. -/
def tool_precheck (is_test is_exam is_med : Bool) (case_doc : Option (List Chunk))
    (k_facts : Int) (st : GraphState) : GraphState :=
  if st.last_doctor_message = "" then { st with should_call_llm := true }
  else if is_test then tool_precheck_finish (some ("tests")) case_doc k_facts st
  else if is_exam then tool_precheck_finish (some ("exam")) case_doc k_facts st
  else if is_med then
    if is_viral_case st.case_type then { st with should_call_llm := true }
    else tool_precheck_finish none case_doc k_facts st
  else { st with should_call_llm := true }

/-! ## Generative turn handler and guardrail validation node (`graph.py`) -/

/-- View of the graph state as a `PatientResponse`: `validate_response`
passes `resp=state` to `apply_guardrails`, which reads exactly these
fields. -/
def resp_of_state (st : GraphState) : PatientResponse :=
  { patient_utterance := st.patient_utterance
    new_disclosed_fact_ids := st.new_disclosed_fact_ids
    requested_clarifications := st.requested_clarifications
    visit_end_recommendation := st.visit_end_recommendation
    safety_flags := st.safety_flags }

/-- Source: `graph.generate_patient_response`.  The generative
collaborator is an external black box; its parsed structured result for
this attempt is the argument `res` (one collaborator call per
invocation when a doctor message is present). -/
def generate_patient_response (res : PatientResponse) (st : GraphState) : GraphState :=
  if st.last_doctor_message = "" then st
  else
    { st with
      llm_attempts := 1,
      patient_utterance := res.patient_utterance,
      new_disclosed_fact_ids := res.new_disclosed_fact_ids,
      safety_flags := res.safety_flags,
      visit_end_recommendation := res.visit_end_recommendation,
      requested_clarifications := res.requested_clarifications,
      guardrail_rejected := false }

/-- The viral-case domain rule at the end of `graph.validate_response`
(lines forcing `visit_end_recommendation` and appending a thanks when
the utterance lacks one); `followup` abstracts
`_looks_like_followup_request(state.last_doctor_message)`. -/
def viral_postprocess (followup : Bool) (st : GraphState) : GraphState :=
  if is_viral_case st.case_type = true ∧ followup = true then
    let st :=
      if ¬st.visit_end_recommendation = true then { st with visit_end_recommendation := true }
      else st
    if st.patient_utterance ≠ "" ∧ ¬contains_lower ("thank") st.patient_utterance = true then
      { st with patient_utterance := append_thanks st.patient_utterance }
    else st
  else st

/-- Source: `graph.validate_response`, instrumented with the number of
regeneration calls made to the generative collaborator (`0` or `1`).
`res2` is the collaborator's parsed result for the single regeneration
attempt; `regen_on_reject` models the `LLM_REGEN_ON_REJECT` switch
(default on); `followup` abstracts `_looks_like_followup_request`
applied to the doctor message. -/
def validate_response_counted (diagSub : String → Option String) (res2 : PatientResponse)
    (regen_on_reject followup : Bool) (st : GraphState) : GraphState × Nat :=
  if st.last_doctor_message = "" then (st, 0)
  else
    let d := apply_guardrails diagSub (resp_of_state st) st.allowed_facts
      st.disclosed_fact_ids ("reject_once_else_strip")
    let st := { st with
      patient_utterance := d.patient_utterance,
      new_disclosed_fact_ids := d.new_disclosed_fact_ids,
      safety_flags := d.safety_flags,
      guardrail_rejected := d.rejected }
    let regen_result :=
      if d.rejected = true ∧ regen_on_reject = true ∧ st.llm_attempts < 2 then
        let st := { st with
          llm_attempts := st.llm_attempts + 1,
          patient_utterance := res2.patient_utterance,
          new_disclosed_fact_ids := res2.new_disclosed_fact_ids,
          safety_flags := res2.safety_flags,
          visit_end_recommendation := res2.visit_end_recommendation,
          requested_clarifications := res2.requested_clarifications }
        let d2 := apply_guardrails diagSub (resp_of_state st) st.allowed_facts
          st.disclosed_fact_ids ("strip_only")
        ({ st with
          patient_utterance := d2.patient_utterance,
          new_disclosed_fact_ids := d2.new_disclosed_fact_ids,
          safety_flags := d2.safety_flags,
          guardrail_rejected := d2.rejected }, 1)
      else (st, 0)
    (viral_postprocess followup regen_result.1, regen_result.2)

/-- Source: `graph.validate_response` (the state part of the
instrumented node). -/
def validate_response (diagSub : String → Option String) (res2 : PatientResponse)
    (regen_on_reject followup : Bool) (st : GraphState) : GraphState :=
  (validate_response_counted diagSub res2 regen_on_reject followup st).1

/-- Collaborator invocations of one generative turn: one call in
`generate_patient_response` plus at most one regeneration in
`validate_response` (`res1`/`res2` are the two attempts' parsed
results). -/
def turn_generative_calls (diagSub : String → Option String) (res1 res2 : PatientResponse)
    (regen_on_reject followup : Bool) (st : GraphState) : Nat :=
  if st.last_doctor_message = "" then 0
  else
    1 + (validate_response_counted diagSub res2 regen_on_reject followup
      (generate_patient_response res1 st)).2

/-! ## Persistence layer (`repos.py`, doc level, one session) -/

/-- One message row (`MessageRepo.append`: `visit_number`,
`turn_index`, `role`, `content`; the `meta` argument of
`upsert_turn_message` is dropped by `append` and thus omitted). -/
structure MessageRow where
  visit_no : Int
  turn_idx : Nat
  role : String
  content : String
deriving DecidableEq, Repr

/-- The session document as produced by `_session_row_to_doc` /
consumed by `persist_turn` (per-session model: `session_id` dropped). -/
structure SessionRow where
  visit_no : Int
  turn_no : Nat
  disclosed_fact_ids : List String
  performed_exams : List String
  performed_tests : List String
deriving DecidableEq, Repr

/-- Storage state for one session: the message rows (in insertion
order) and the session row (`none` models a missing session row). -/
structure DB where
  messages : List MessageRow
  session : Option SessionRow
deriving DecidableEq, Repr

/-- Source: `MessageRepo.get_turn_message` — first row matching
`(visit_number, turn_index)` for the session. -/
def get_turn_message (db : DB) (visit_no : Int) (turn_no : Nat) : Option MessageRow :=
  db.messages.find? (fun m => m.visit_no = visit_no ∧ m.turn_idx = turn_no)

/-- Source: `MessageRepo.upsert_turn_message` — insert a row unless one
already exists at `(visit_number, turn_index)`. -/
def upsert_turn_message (db : DB) (visit_no : Int) (turn_no : Nat)
    (role : String) (content : String) : DB :=
  match get_turn_message db visit_no turn_no with
  | some _ => db
  | none =>
    { db with messages := db.messages ++
        [{ visit_no := visit_no, turn_idx := turn_no, role := role, content := content }] }

/-- Source: `SessionRepo.update_ledger` — overwrite the three ledger
lists of the session row (no-op when the session row is missing). -/
def update_ledger (db : DB) (disclosed performed_exams performed_tests : List String) : DB :=
  match db.session with
  | none => db
  | some s =>
    { db with session := some { s with
        disclosed_fact_ids := disclosed,
        performed_exams := performed_exams,
        performed_tests := performed_tests } }

/-- Source: `SessionRepo.bump_turn` — set the session's visit number
and turn counter (no-op when the session row is missing). -/
def bump_turn (db : DB) (visit_no : Int) (turn_no : Nat) : DB :=
  match db.session with
  | none => db
  | some s => { db with session := some { s with visit_no := visit_no, turn_no := turn_no } }

/-- Source: `TurnRepo.start_turn` — the idempotency check: the status
is `"persisted"` iff the message rows the turn identifier would write
already exist (for `doctor_turn_no = 0` the single intro row, otherwise
the doctor and patient rows). -/
def start_turn_status (db : DB) (visit_no : Int) (doctor_turn_no : Nat) : String :=
  if doctor_turn_no = 0 then
    if (get_turn_message db visit_no 0).isSome then ("persisted") else ("started")
  else
    if (get_turn_message db visit_no doctor_turn_no).isSome ∧
        (get_turn_message db visit_no (doctor_turn_no + 1)).isSome then ("persisted")
    else ("started")

/-- The turn-number derivation at the top of `graph.persist_turn`:
`current_turn` and `doctor_turn_no` from the state and the stored
session row (including the `max` reconciliations and the
`doctor_turn_no is None or <= 0` fallback). -/
def compute_turn_nos (db : DB) (st : GraphState) : Nat × Nat :=
  let ct0 := st.turn_in_visit
  let with_session :=
    match db.session with
    | some sess => (max ct0 (sess.turn_no / 2), some (sess.turn_no + 1))
    | none => (ct0, none)
  let ct := with_session.1
  let dtn_opt :=
    match st.doctor_turn_no, with_session.2 with
    | some d, none => some d
    | some d, some dtn => some (max d dtn)
    | none, x => x
  match dtn_opt with
  | none => (ct, ct * 2 + 1)
  | some dtn => if dtn = 0 then (ct, ct * 2 + 1) else (ct, dtn)

/-- First-match-wins lookup in the `chunk_index` dict of `persist_turn`
(a Python dict comprehension keyed by `chunk_id`: a later duplicate id
overwrites an earlier one, hence `getLast?`; chunks with falsy ids are
excluded). -/
def chunk_index_lookup (chunks : List Chunk) (fid : String) : Option Chunk :=
  (chunks.filter (fun ch => ch.chunk_id ≠ "" && ch.chunk_id = fid)).getLast?

/-- The ledger-merge loop of `persist_turn`: append each newly
disclosed id not already present, and mirror exam/tests chunk kinds
into the performed lists. -/
def merge_ledger (chunks : List Chunk) (new_ids : List String)
    (acc : List String × List String × List String) :
    List String × List String × List String :=
  new_ids.foldl
    (fun acc fid =>
      let d := acc.1
      let e := acc.2.1
      let t := acc.2.2
      let d := if fid ∈ d then d else d ++ [fid]
      match chunk_index_lookup chunks fid with
      | none => (d, e, t)
      | some ch =>
        let e := if ch.kind = "exam" ∧ fid ∉ e then e ++ [fid] else e
        let t := if ch.kind = "tests" ∧ fid ∉ t then t ++ [fid] else t
        (d, e, t))
    acc

/-- Source: `graph.persist_turn`.  The embedding calls
(`store_message_embedding`) are external best-effort side channels with
no effect on the modelled storage and are omitted; `mark_status` is a
literal no-op in `TurnRepo`.  In this model no write fails, so the
`except` path marking the turn failed is not taken. -/
def persist_turn (chunks : List Chunk) (db : DB) (st : GraphState) : DB × GraphState :=
  if st.last_doctor_message = "" then (db, st)
  else
    let nos := compute_turn_nos db st
    let current_turn := nos.1
    let doctor_turn_no := nos.2
    let patient_turn_no := doctor_turn_no + 1
    let st := { st with doctor_turn_no := some doctor_turn_no }
    if start_turn_status db st.visit_number doctor_turn_no = "persisted" then
      let st :=
        match db.session with
        | some r =>
          { st with
            turn_in_visit := r.turn_no / 2,
            visit_number := r.visit_no,
            disclosed_fact_ids := r.disclosed_fact_ids,
            performed_exams := r.performed_exams,
            performed_tests := r.performed_tests }
        | none => st
      (db, { st with last_doctor_message := "" })
    else
      let db := upsert_turn_message db st.visit_number doctor_turn_no ("doctor")
        st.last_doctor_message
      let db := upsert_turn_message db st.visit_number patient_turn_no ("patient")
        st.patient_utterance
      let merged := merge_ledger chunks st.new_disclosed_fact_ids
        (st.disclosed_fact_ids, st.performed_exams, st.performed_tests)
      let st := { st with
        disclosed_fact_ids := merged.1,
        performed_exams := merged.2.1,
        performed_tests := merged.2.2 }
      let db := update_ledger db st.disclosed_fact_ids st.performed_exams st.performed_tests
      let db := bump_turn db st.visit_number patient_turn_no
      let st := { st with turn_in_visit := current_turn + 1 }
      (db, { st with last_doctor_message := "" })

/-! ## Request-text normalization (`disclosure._normalize`) -/

/-- Whitespace-run collapsing used by `normalize_text`; the flag records
whether the previous kept character was produced by a whitespace run. -/
def collapse_ws_aux : Bool → List Char → List Char
  | _, [] => []
  | prev_ws, c :: rest =>
    if c.isWhitespace then
      if prev_ws then collapse_ws_aux true rest
      else ' ' :: collapse_ws_aux true rest
    else c :: collapse_ws_aux false rest

/-- Source: `disclosure._normalize`
(`re.sub(r"\s+", " ", s.strip().lower())`). -/
def normalize_text (s : String) : String :=
  String.mk (collapse_ws_aux false (lower_chars (py_strip s)))

/-! ## Session-ledger reachability (for the cross-turn invariant C2) -/

/-- The ephemeral state at the start of a generative turn, as
`load_state` plus `reset_turn_outputs` produce it for a session at
visit `visit_no` with ledger `disclosed` (fields irrelevant to the
disclosed-id ledger are at their reset values). -/
def gen_turn_state (chunks : List Chunk) (level visit_no k_facts : Int)
    (case_type last_msg : String) (disclosed : List String) : GraphState :=
  { case_type := case_type
    visit_number := visit_no
    turn_in_visit := 0
    doctor_turn_no := none
    disclosed_fact_ids := disclosed
    performed_exams := []
    performed_tests := []
    last_doctor_message := last_msg
    doctor_level := level
    allowed_facts := build_allowed_facts chunks level visit_no disclosed k_facts
    patient_core_response := ""
    patient_utterance := ""
    response_source := "llm"
    new_disclosed_fact_ids := []
    safety_flags := []
    visit_end_recommendation := false
    requested_clarifications := none
    llm_attempts := 0
    should_end_visit := false
    guardrail_rejected := false
    should_call_llm := true }

/-- The disclosed-id ledger after one generative turn: the pipeline runs
`generate_patient_response`, `validate_response`, and the ledger-merge
loop of `persist_turn` (`res1`/`res2` are the collaborator's two
possible attempt results, arbitrary). -/
def turn_disclosed_update (chunks : List Chunk) (level visit_no k_facts : Int)
    (diagSub : String → Option String) (res1 res2 : PatientResponse)
    (regen_on_reject followup : Bool) (case_type last_msg : String)
    (disclosed : List String) : List String :=
  let st0 := gen_turn_state chunks level visit_no k_facts case_type last_msg disclosed
  let st1 := generate_patient_response res1 st0
  let st2 := validate_response diagSub res2 regen_on_reject followup st1
  (merge_ledger chunks st2.new_disclosed_fact_ids (disclosed, [], [])).1

/-- Reachable `(visit number, disclosed-id ledger)` pairs of one
session: a session starts at visit 1 with an empty ledger
(`SessionRepo.create`); a generative turn merges the validated ids into
the ledger (`persist_turn`; the tool-precheck path writes
`new_disclosed_fact_ids = []` and a retried already-persisted turn
leaves the stored ledger untouched, so both are ledger identities);
ending a visit advances the visit number and keeps the ledger
(`SessionRepo.end_visit`). -/
inductive ReachableLedger (chunks : List Chunk) (level k_facts : Int) :
    Int × List String → Prop
  | init : ReachableLedger chunks level k_facts (1, [])
  | gen_turn {v : Int} {d : List String} (diagSub : String → Option String)
      (res1 res2 : PatientResponse) (regen_on_reject followup : Bool)
      (case_type last_msg : String) :
      ReachableLedger chunks level k_facts (v, d) →
      ReachableLedger chunks level k_facts
        (v, turn_disclosed_update chunks level v k_facts diagSub res1 res2
          regen_on_reject followup case_type last_msg d)
  | end_visit {v : Int} {d : List String} :
      ReachableLedger chunks level k_facts (v, d) →
      ReachableLedger chunks level k_facts (v + 1, d)

/-! ## Lemmas: guardrail id filtering -/

theorem validate_fact_ids_safe_mem (proposed allowed already : List String) (fid : String)
    (h : fid ∈ (validate_fact_ids proposed allowed already).1) :
    fid ∈ allowed ∧ fid ∉ already := by
  induction proposed with
  | nil => simp [validate_fact_ids] at h
  | cons x rest ih =>
    rw [validate_fact_ids] at h
    by_cases hx : x ∈ allowed
    · by_cases hd : x ∈ already
      · simp [hx, hd] at h
        exact ih h
      · simp [hx, hd] at h
        rcases h with h | h
        · subst h
          exact ⟨hx, hd⟩
        · exact ih h
    · simp [hx] at h
      exact ih h

theorem apply_guardrails_ids (diagSub : String → Option String) (resp : PatientResponse)
    (facts : List PromptFact) (disc : List String) (mode : String) :
    (apply_guardrails diagSub resp facts disc mode).new_disclosed_fact_ids
      = (validate_fact_ids resp.new_disclosed_fact_ids (facts.map (fun f => f.id)) disc).1 := by
  unfold apply_guardrails
  dsimp only
  split <;> rfl

theorem apply_guardrails_ids_mem (diagSub : String → Option String) (resp : PatientResponse)
    (facts : List PromptFact) (disc : List String) (mode : String) (fid : String)
    (h : fid ∈ (apply_guardrails diagSub resp facts disc mode).new_disclosed_fact_ids) :
    fid ∈ facts.map (fun f => f.id) ∧ fid ∉ disc := by
  rw [apply_guardrails_ids] at h
  exact validate_fact_ids_safe_mem _ _ _ _ h

theorem viral_postprocess_ids (followup : Bool) (st : GraphState) :
    (viral_postprocess followup st).new_disclosed_fact_ids = st.new_disclosed_fact_ids := by
  unfold viral_postprocess
  dsimp only
  repeat' split
  all_goals rfl

theorem validate_response_ids_mem (diagSub : String → Option String) (res2 : PatientResponse)
    (regen_on_reject followup : Bool) (st : GraphState) (fid : String)
    (hmsg : st.last_doctor_message ≠ "")
    (h : fid ∈ (validate_response diagSub res2 regen_on_reject followup st).new_disclosed_fact_ids) :
    fid ∈ st.allowed_facts.map (fun f => f.id) ∧ fid ∉ st.disclosed_fact_ids := by
  unfold validate_response validate_response_counted at h
  rw [if_neg hmsg] at h
  dsimp only at h
  rw [viral_postprocess_ids] at h
  split at h
  · exact apply_guardrails_ids_mem _ _ _ _ _ _ h
  · exact apply_guardrails_ids_mem _ _ _ _ _ _ h

/-! ## Sample data for concrete instantiations -/

def sample_chunk_h : Chunk :=
  { chunk_id := "c1", visit_no := 1, stage := 0, kind := "history",
    detail_depth := 1, content := "had fever for two days" }

def sample_chunk_t : Chunk :=
  { chunk_id := "t1", visit_no := 2, stage := 0, kind := "tests",
    detail_depth := 1, content := "rapid strep test negative" }

def sample_resp : PatientResponse :=
  { patient_utterance := "I have had a fever.", new_disclosed_fact_ids := ["c1"],
    requested_clarifications := none, visit_end_recommendation := false, safety_flags := [] }

/-! ## C1 -/

/-- C1: for every generative output, the final accepted-ID list of the
Guardrail Validator (`validate_response`, covering the reject-once pass,
the optional regeneration, and the strip-only second pass) contains
only ids from the allowed-fact set that are not already disclosed; and
in any single `apply_guardrails` pass of either mode, a proposed id
outside the allowed set is never accepted. -/
theorem validate_response_final_ids_within_allowed
    (diagSub : String → Option String) (res2 : PatientResponse)
    (regen_on_reject followup : Bool) (st : GraphState) (fid : String)
    (hmsg : st.last_doctor_message ≠ "") :
    (fid ∈ (validate_response diagSub res2 regen_on_reject followup st).new_disclosed_fact_ids →
      fid ∈ st.allowed_facts.map (fun f => f.id) ∧ fid ∉ st.disclosed_fact_ids) ∧
    (∀ (resp : PatientResponse) (facts : List PromptFact) (disc : List String) (mode : String),
      fid ∉ facts.map (fun f => f.id) →
      fid ∉ (apply_guardrails diagSub resp facts disc mode).new_disclosed_fact_ids) := by
  constructor
  · exact fun h => validate_response_ids_mem diagSub res2 regen_on_reject followup st fid hmsg h
  · intro resp facts disc mode hout hmem
    exact hout (apply_guardrails_ids_mem diagSub resp facts disc mode fid hmem).1

theorem validate_response_final_ids_within_allowed_witness :
    (gen_turn_state [sample_chunk_h] 0 1 25 "" "What brings you in?" []).last_doctor_message ≠ "" ∧
    ((("zz" : String) ∈ (validate_response (fun _ => none) sample_resp true false
        (gen_turn_state [sample_chunk_h] 0 1 25 "" "What brings you in?" [])).new_disclosed_fact_ids →
      ("zz" : String) ∈ (gen_turn_state [sample_chunk_h] 0 1 25 "" "What brings you in?" []).allowed_facts.map
        (fun f => f.id) ∧
      ("zz" : String) ∉ (gen_turn_state [sample_chunk_h] 0 1 25 "" "What brings you in?" []).disclosed_fact_ids) ∧
    (∀ (resp : PatientResponse) (facts : List PromptFact) (disc : List String) (mode : String),
      ("zz" : String) ∉ facts.map (fun f => f.id) →
      ("zz" : String) ∉ (apply_guardrails (fun _ => none) resp facts disc mode).new_disclosed_fact_ids)) :=
  ⟨by decide,
    validate_response_final_ids_within_allowed (fun _ => none) sample_resp true false
      (gen_turn_state [sample_chunk_h] 0 1 25 "" "What brings you in?" []) "zz" (by decide)⟩

/-! ## C8 -/

/-- C8: the disclosure-policy functions are total Lean functions on all
integers (purity/determinism are intrinsic to the embedding), clamp
out-of-range inputs (visit numbers below 1 behave like visit 1, levels
below 0 behave like level 0), and are monotone in the visit number:
a later visit never shrinks the detail depth or the unlocked tool
set. -/
theorem disclosure_policy_total_clamped_monotone :
    (∀ (level v1 v2 : Int), v1 ≤ v2 →
      max_detail_depth level v1 ≤ max_detail_depth level v2 ∧
      ∀ t ∈ allowed_tools level v1, t ∈ allowed_tools level v2) ∧
    (∀ (level v : Int), v ≤ 1 →
      max_detail_depth level v = max_detail_depth level 1 ∧
      allowed_tools level v = allowed_tools level 1) ∧
    (∀ level : Int, level ≤ 0 → max_visits level = max_visits 0) := by
  refine ⟨fun level v1 v2 h12 => ⟨?_, ?_⟩, fun level v hv => ⟨?_, ?_⟩, fun level hl => ?_⟩
  · unfold max_detail_depth
    dsimp only
    repeat' split
    all_goals omega
  · unfold allowed_tools
    dsimp only
    intro t ht
    split at ht
    · rw [if_pos (by omega)]
      exact ht
    · split
      · exact List.mem_append.mpr (Or.inl ht)
      · exact ht
  · unfold max_detail_depth
    dsimp only
    have h1 : max 1 v = 1 := by omega
    rw [h1]
    simp
  · unfold allowed_tools
    dsimp only
    have h1 : max 1 v = 1 := by omega
    rw [h1]
    simp
  · unfold max_visits
    dsimp only
    have h1 : max 0 level = 0 := by omega
    rw [h1]
    simp

theorem disclosure_policy_total_clamped_monotone_witness :
    ((1 : Int) ≤ (2 : Int) ∧ (-3 : Int) ≤ (1 : Int) ∧ (-2 : Int) ≤ (0 : Int)) ∧
    (max_detail_depth 0 1 ≤ max_detail_depth 0 2 ∧
      ∀ t ∈ allowed_tools 0 1, t ∈ allowed_tools 0 2) ∧
    (max_detail_depth 0 (-3) = max_detail_depth 0 1 ∧
      allowed_tools 0 (-3) = allowed_tools 0 1) ∧
    max_visits (-2) = max_visits 0 :=
  ⟨by decide,
    (disclosure_policy_total_clamped_monotone.1 0 1 2 (by decide)),
    (disclosure_policy_total_clamped_monotone.2.1 0 (-3) (by decide)),
    (disclosure_policy_total_clamped_monotone.2.2 (-2) (by decide))⟩

/-! ## C10 -/

/-- C10: persisted messages are immutable — when a message row already
exists at `(visit number, turn index)`, `upsert_turn_message` is a
no-op on the store, so the stored role and content are unchanged by any
replay or retry. -/
theorem upsert_turn_message_immutable (db : DB) (visit_no : Int) (turn_no : Nat)
    (role content : String) (m : MessageRow)
    (h : get_turn_message db visit_no turn_no = some m) :
    upsert_turn_message db visit_no turn_no role content = db ∧
    get_turn_message (upsert_turn_message db visit_no turn_no role content) visit_no turn_no
      = some m := by
  unfold upsert_turn_message
  rw [h]
  exact ⟨rfl, h⟩

theorem upsert_turn_message_immutable_witness :
    get_turn_message
        { messages := [{ visit_no := 1, turn_idx := 1, role := "doctor", content := "hello" }],
          session := none } 1 1
      = some { visit_no := 1, turn_idx := 1, role := "doctor", content := "hello" } ∧
    (upsert_turn_message
        { messages := [{ visit_no := 1, turn_idx := 1, role := "doctor", content := "hello" }],
          session := none } 1 1 "doctor" "OVERWRITTEN"
      = { messages := [{ visit_no := 1, turn_idx := 1, role := "doctor", content := "hello" }],
          session := none } ∧
    get_turn_message
        (upsert_turn_message
          { messages := [{ visit_no := 1, turn_idx := 1, role := "doctor", content := "hello" }],
            session := none } 1 1 "doctor" "OVERWRITTEN") 1 1
      = some { visit_no := 1, turn_idx := 1, role := "doctor", content := "hello" }) :=
  ⟨by decide,
    upsert_turn_message_immutable _ 1 1 "doctor" "OVERWRITTEN" _ (by decide)⟩

/-! ## C3 -/

theorem compute_turn_nos_pos (db : DB) (st : GraphState) (sess : SessionRow)
    (hsess : db.session = some sess) : (compute_turn_nos db st).2 ≠ 0 := by
  unfold compute_turn_nos
  rw [hsess]
  dsimp only
  cases st.doctor_turn_no <;> dsimp only <;> rw [if_neg (by omega)] <;> omega

theorem start_turn_status_persisted (db : DB) (visit_no : Int) (dtn : Nat)
    (hdtn : dtn ≠ 0)
    (hdoc : (get_turn_message db visit_no dtn).isSome)
    (hpat : (get_turn_message db visit_no (dtn + 1)).isSome) :
    start_turn_status db visit_no dtn = "persisted" := by
  unfold start_turn_status
  rw [if_neg hdtn, if_pos ⟨hdoc, hpat⟩]

/-- C3: turn persistence is idempotent — when the doctor and patient
messages of the turn identifier computed by `persist_turn` are both
already stored, the run performs no storage write at all and instead
reloads the ledger state (disclosed ids, performed exams/tests, visit
and turn counters) from the stored session row. -/
theorem persist_turn_idempotent (chunks : List Chunk) (db : DB) (st : GraphState)
    (sess : SessionRow)
    (hmsg : st.last_doctor_message ≠ "")
    (hsess : db.session = some sess)
    (hdoc : (get_turn_message db st.visit_number (compute_turn_nos db st).2).isSome)
    (hpat : (get_turn_message db st.visit_number ((compute_turn_nos db st).2 + 1)).isSome) :
    (persist_turn chunks db st).1 = db ∧
    (persist_turn chunks db st).2.disclosed_fact_ids = sess.disclosed_fact_ids ∧
    (persist_turn chunks db st).2.performed_exams = sess.performed_exams ∧
    (persist_turn chunks db st).2.performed_tests = sess.performed_tests ∧
    (persist_turn chunks db st).2.visit_number = sess.visit_no ∧
    (persist_turn chunks db st).2.turn_in_visit = sess.turn_no / 2 := by
  have hdtn : (compute_turn_nos db st).2 ≠ 0 := compute_turn_nos_pos db st sess hsess
  have hstat := start_turn_status_persisted db st.visit_number (compute_turn_nos db st).2
    hdtn hdoc hpat
  unfold persist_turn
  rw [if_neg hmsg]
  dsimp only
  rw [hstat, if_pos rfl, hsess]
  exact ⟨rfl, rfl, rfl, rfl, rfl, rfl⟩

def c3_sess : SessionRow :=
  { visit_no := 1, turn_no := 0, disclosed_fact_ids := ["c1"],
    performed_exams := [], performed_tests := ["t1"] }

def c3_db : DB :=
  { messages :=
      [{ visit_no := 1, turn_idx := 1, role := "doctor", content := "hi" },
       { visit_no := 1, turn_idx := 2, role := "patient", content := "hello" }],
    session := some c3_sess }

def c3_state : GraphState := gen_turn_state [] 0 1 25 "" "hi again" ["c1"]

theorem persist_turn_idempotent_witness :
    (c3_state.last_doctor_message ≠ "" ∧
      c3_db.session = some c3_sess ∧
      (get_turn_message c3_db c3_state.visit_number (compute_turn_nos c3_db c3_state).2).isSome ∧
      (get_turn_message c3_db c3_state.visit_number
        ((compute_turn_nos c3_db c3_state).2 + 1)).isSome) ∧
    (persist_turn [] c3_db c3_state).1 = c3_db ∧
    (persist_turn [] c3_db c3_state).2.disclosed_fact_ids = c3_sess.disclosed_fact_ids ∧
    (persist_turn [] c3_db c3_state).2.performed_exams = c3_sess.performed_exams ∧
    (persist_turn [] c3_db c3_state).2.performed_tests = c3_sess.performed_tests ∧
    (persist_turn [] c3_db c3_state).2.visit_number = c3_sess.visit_no ∧
    (persist_turn [] c3_db c3_state).2.turn_in_visit = c3_sess.turn_no / 2 :=
  ⟨⟨by decide, by decide, by decide, by decide⟩,
    persist_turn_idempotent [] c3_db c3_state c3_sess (by decide) (by decide) (by decide) (by decide)⟩

/-! ## C4: characterization of the allowed-fact selector -/

theorem facts_loop_eq (level visit_no : Int) (disclosed : List String) (max_facts : Int)
    (l : List Chunk) :
    ∀ acc : List PromptFact,
      facts_loop level visit_no disclosed max_facts l acc
        = acc ++ ((l.filter (chunk_passes level visit_no disclosed)).map fact_of_chunk).take
            (max (max_facts - acc.length) 1).toNat := by
  induction l with
  | nil =>
    intro acc
    simp [facts_loop]
  | cons ch rest ih =>
    intro acc
    rw [facts_loop]
    by_cases hp : chunk_passes level visit_no disclosed ch
    · rw [if_pos hp]
      dsimp only
      rw [List.filter_cons_of_pos hp, List.map_cons]
      by_cases hcap : ((acc ++ [fact_of_chunk ch]).length : Int) ≥ max_facts
      · rw [if_pos hcap]
        have ha : ((acc ++ [fact_of_chunk ch]).length : Int) = (acc.length : Int) + 1 := by
          simp
        have hn : (max (max_facts - (acc.length : Int)) 1).toNat = 1 := by
          rw [ha] at hcap
          omega
        rw [hn, List.take_succ_cons, List.take_zero]
      · rw [if_neg hcap, ih]
        have ha : ((acc ++ [fact_of_chunk ch]).length : Int) = (acc.length : Int) + 1 := by
          simp
        rw [ha] at hcap ⊢
        have hn : (max (max_facts - (acc.length : Int)) 1).toNat
            = (max (max_facts - ((acc.length : Int) + 1)) 1).toNat + 1 := by
          omega
        rw [hn, List.take_succ_cons, List.append_assoc, List.singleton_append]
    · rw [if_neg hp, ih, List.filter_cons_of_neg (by simpa using hp)]

theorem build_allowed_facts_eq (chunks : List Chunk) (level visit_no : Int)
    (disclosed : List String) (max_facts : Int) :
    build_allowed_facts chunks level visit_no disclosed max_facts
      = (((chunks.insertionSort chunk_key_le).filter (chunk_passes level visit_no disclosed)).map
          fact_of_chunk).take (max max_facts 1).toNat := by
  unfold build_allowed_facts
  rw [facts_loop_eq]
  simp

theorem build_allowed_facts_mem (chunks : List Chunk) (level visit_no : Int)
    (disclosed : List String) (max_facts : Int) (f : PromptFact)
    (h : f ∈ build_allowed_facts chunks level visit_no disclosed max_facts) :
    ∃ ch ∈ chunks, chunk_passes level visit_no disclosed ch = true ∧ fact_of_chunk ch = f := by
  rw [build_allowed_facts_eq] at h
  have h1 := List.mem_of_mem_take h
  obtain ⟨ch, hch, hfe⟩ := List.mem_map.mp h1
  have hf := List.mem_filter.mp hch
  exact ⟨ch, (List.mem_insertionSort chunk_key_le).mp hf.1, hf.2, hfe⟩

theorem chunk_passes_iff (level visit_no : Int) (disclosed : List String) (ch : Chunk) :
    chunk_passes level visit_no disclosed ch = true ↔
      (ch.chunk_id ≠ "" ∧ ch.chunk_id ∉ disclosed ∧ ch.visit_no = visit_no ∧
        ch.detail_depth ≤ max_detail_depth level visit_no ∧
        ¬(ch.kind = "exam" ∧ "exam" ∉ allowed_tools level visit_no) ∧
        ¬(ch.kind = "tests" ∧ "tests" ∉ allowed_tools level visit_no)) := by
  unfold chunk_passes
  dsimp only
  simp
  tauto

theorem chunk_key_le_trans (a b c : Chunk) (hab : chunk_key_le a b) (hbc : chunk_key_le b c) :
    chunk_key_le a c := by
  simp only [chunk_key_le] at hab hbc ⊢
  rcases hab with h1 | ⟨e1, h1⟩
  · rcases hbc with h2 | ⟨e2, h2⟩
    · left; omega
    · left; omega
  · rcases hbc with h2 | ⟨e2, h2⟩
    · left; omega
    · right
      refine ⟨by omega, ?_⟩
      rcases h1 with s1 | ⟨es1, i1⟩
      · rcases h2 with s2 | ⟨es2, i2⟩
        · left; omega
        · left; omega
      · rcases h2 with s2 | ⟨es2, i2⟩
        · left; omega
        · right
          exact ⟨by omega, le_trans i1 i2⟩

theorem chunk_key_le_total (a b : Chunk) : chunk_key_le a b ∨ chunk_key_le b a := by
  simp only [chunk_key_le]
  rcases lt_trichotomy a.visit_no b.visit_no with h | h | h
  · exact Or.inl (Or.inl h)
  · rcases lt_trichotomy a.stage b.stage with h2 | h2 | h2
    · exact Or.inl (Or.inr ⟨h, Or.inl h2⟩)
    · rcases le_total a.chunk_id b.chunk_id with h3 | h3
      · exact Or.inl (Or.inr ⟨h, Or.inr ⟨h2, h3⟩⟩)
      · exact Or.inr (Or.inr ⟨h.symm, Or.inr ⟨h2.symm, h3⟩⟩)
    · exact Or.inr (Or.inr ⟨h.symm, Or.inl h2⟩)
  · exact Or.inr (Or.inl h)

instance : IsTrans Chunk chunk_key_le := ⟨chunk_key_le_trans⟩

instance : IsTotal Chunk chunk_key_le := ⟨chunk_key_le_total⟩

theorem sorted_filtered_chunks (chunks : List Chunk) (level visit_no : Int)
    (disclosed : List String) :
    ((chunks.insertionSort chunk_key_le).filter (chunk_passes level visit_no disclosed)).Pairwise
      chunk_key_le := by
  have hs := List.sorted_insertionSort chunk_key_le chunks
  exact List.Pairwise.sublist (List.filter_sublist _) hs

theorem chunk_passes_eq_spec (level visit_no : Int) (disclosed : List String) (ch : Chunk) :
    chunk_passes level visit_no disclosed ch
      = (decide (ch.chunk_id ≠ "") && chunk_passes_spec level visit_no disclosed ch) := by
  unfold chunk_passes chunk_passes_spec
  dsimp only
  rw [← Bool.decide_and, decide_eq_decide]
  tauto

theorem chunk_passes_true_iff (level visit_no : Int) (disclosed : List String) (ch : Chunk) :
    chunk_passes level visit_no disclosed ch = true ↔
      (ch.chunk_id ≠ "" ∧ chunk_passes_spec level visit_no disclosed ch = true) := by
  rw [chunk_passes_eq_spec]
  simp

def empty_id_chunk : Chunk :=
  { chunk_id := "", visit_no := 1, stage := 0, kind := "history",
    detail_depth := 1, content := "unlabeled note" }

/-- C4 counterexample: the claim as stated fails at two concrete
inputs.  (a) Cap: with bound `K = 0` and one eligible chunk the
selector still returns one fact — the loop checks
`len(facts) >= max_facts` only after appending, so the output is not
capped at `K`.  (b) Exactness: with `K = 25`, a chunk whose id is the
empty string satisfies every filter in the claim's list (its visit
matches, its depth is within the bound, its kind is not gated, its id
is not in the disclosed set) yet the selector drops it via the
`if not cid` guard, so the output does not contain exactly the facts
passing the claim's filters and differs from the spec-side pipeline
`allowed_facts_spec`. -/
theorem build_allowed_facts_counterexample :
    ((build_allowed_facts [sample_chunk_h] 0 1 [] 0).length = 1 ∧
      ¬ (((build_allowed_facts [sample_chunk_h] 0 1 [] 0).length : Int) ≤ 0)) ∧
    (chunk_passes_spec 0 1 [] empty_id_chunk = true ∧
      build_allowed_facts [empty_id_chunk] 0 1 [] 25 = [] ∧
      fact_of_chunk empty_id_chunk ∉ build_allowed_facts [empty_id_chunk] 0 1 [] 25 ∧
      allowed_facts_spec [empty_id_chunk] 0 1 [] 25 = [fact_of_chunk empty_id_chunk] ∧
      build_allowed_facts [empty_id_chunk] 0 1 [] 25
        ≠ allowed_facts_spec [empty_id_chunk] 0 1 [] 25) := by
  decide

/-- C4 (amended exactly as the counterexample forces: the cap `K` must
be at least 1 — for `K ≤ 0` the loop still emits one fact — and facts
whose id is empty are dropped by the selector even when they satisfy
every filter in the claim's list): for every `K ≥ 1` the selector
equals the spec pipeline restricted to non-empty-id chunks — sort by
(visit, stage, id), filter with the spec's filter list plus the
non-empty-id guard, take `K`, project.  Hence the output is capped at
`K`; each output fact comes from a chunk with a non-empty id passing
the spec's filters; the underlying chunk sequence is sorted; below the
cap the output contains every non-empty-id chunk passing the spec's
filters; and on case documents without empty-id chunks the selector
coincides with the unmodified spec pipeline `allowed_facts_spec`. -/
theorem build_allowed_facts_correct (chunks : List Chunk) (level visit_no : Int)
    (disclosed : List String) (K : Int) (hK : 1 ≤ K) :
    build_allowed_facts chunks level visit_no disclosed K
      = ((((chunks.insertionSort chunk_key_le).filter
          (fun ch => decide (ch.chunk_id ≠ "") &&
            chunk_passes_spec level visit_no disclosed ch)).take K.toNat).map fact_of_chunk) ∧
    ((build_allowed_facts chunks level visit_no disclosed K).length : Int) ≤ K ∧
    (∀ f ∈ build_allowed_facts chunks level visit_no disclosed K,
      ∃ ch ∈ chunks, ch.chunk_id ≠ "" ∧
        chunk_passes_spec level visit_no disclosed ch = true ∧ fact_of_chunk ch = f) ∧
    ((chunks.insertionSort chunk_key_le).filter
      (fun ch => decide (ch.chunk_id ≠ "") &&
        chunk_passes_spec level visit_no disclosed ch)).Pairwise chunk_key_le ∧
    ((build_allowed_facts chunks level visit_no disclosed K).length < K.toNat →
      ∀ ch ∈ chunks, ch.chunk_id ≠ "" →
        chunk_passes_spec level visit_no disclosed ch = true →
        fact_of_chunk ch ∈ build_allowed_facts chunks level visit_no disclosed K) ∧
    ((∀ ch ∈ chunks, ch.chunk_id ≠ "") →
      build_allowed_facts chunks level visit_no disclosed K
        = allowed_facts_spec chunks level visit_no disclosed K) := by
  have hfilter : chunk_passes level visit_no disclosed
      = (fun ch => decide (ch.chunk_id ≠ "") && chunk_passes_spec level visit_no disclosed ch) :=
    funext fun ch => chunk_passes_eq_spec level visit_no disclosed ch
  have hn : (max K 1).toNat = K.toNat := by omega
  refine ⟨?_, ?_, ?_, ?_, ?_, ?_⟩
  · rw [← hfilter, build_allowed_facts_eq, hn, List.map_take]
  · rw [build_allowed_facts_eq]
    rw [List.length_take]
    omega
  · intro f hf
    obtain ⟨ch, hch, hpass, hfe⟩ := build_allowed_facts_mem chunks level visit_no disclosed K f hf
    obtain ⟨hne, hspec⟩ := (chunk_passes_true_iff level visit_no disclosed ch).mp hpass
    exact ⟨ch, hch, hne, hspec, hfe⟩
  · rw [← hfilter]
    exact sorted_filtered_chunks chunks level visit_no disclosed
  · intro hlt ch hch hne hspec
    rw [build_allowed_facts_eq] at hlt ⊢
    rw [List.length_take] at hlt
    have hlen :
        (((chunks.insertionSort chunk_key_le).filter
          (chunk_passes level visit_no disclosed)).map fact_of_chunk).length
          ≤ (max K 1).toNat := by omega
    rw [List.take_of_length_le hlen]
    refine List.mem_map.mpr ⟨ch, List.mem_filter.mpr
      ⟨(List.mem_insertionSort chunk_key_le).mpr hch, ?_⟩, rfl⟩
    exact (chunk_passes_true_iff level visit_no disclosed ch).mpr ⟨hne, hspec⟩
  · intro hall
    rw [build_allowed_facts_eq, hn]
    unfold allowed_facts_spec
    have hfe : (chunks.insertionSort chunk_key_le).filter (chunk_passes level visit_no disclosed)
        = (chunks.insertionSort chunk_key_le).filter
          (chunk_passes_spec level visit_no disclosed) := by
      apply List.filter_congr
      intro ch hch
      rw [chunk_passes_eq_spec]
      have hne : ch.chunk_id ≠ "" := hall ch ((List.mem_insertionSort chunk_key_le).mp hch)
      simp [hne]
    rw [hfe, List.map_take]

theorem build_allowed_facts_correct_witness :
    (1 : Int) ≤ 25 ∧
    (build_allowed_facts [sample_chunk_t, sample_chunk_h] 0 1 [] 25
        = (((([sample_chunk_t, sample_chunk_h].insertionSort chunk_key_le).filter
            (fun ch => decide (ch.chunk_id ≠ "") &&
              chunk_passes_spec 0 1 [] ch)).take (25 : Int).toNat).map fact_of_chunk) ∧
      ((build_allowed_facts [sample_chunk_t, sample_chunk_h] 0 1 [] 25).length : Int) ≤ 25 ∧
      (∀ f ∈ build_allowed_facts [sample_chunk_t, sample_chunk_h] 0 1 [] 25,
        ∃ ch ∈ [sample_chunk_t, sample_chunk_h], ch.chunk_id ≠ "" ∧
          chunk_passes_spec 0 1 [] ch = true ∧ fact_of_chunk ch = f) ∧
      (([sample_chunk_t, sample_chunk_h].insertionSort chunk_key_le).filter
        (fun ch => decide (ch.chunk_id ≠ "") &&
          chunk_passes_spec 0 1 [] ch)).Pairwise chunk_key_le ∧
      ((build_allowed_facts [sample_chunk_t, sample_chunk_h] 0 1 [] 25).length
          < (25 : Int).toNat →
        ∀ ch ∈ [sample_chunk_t, sample_chunk_h], ch.chunk_id ≠ "" →
          chunk_passes_spec 0 1 [] ch = true →
          fact_of_chunk ch ∈ build_allowed_facts [sample_chunk_t, sample_chunk_h] 0 1 [] 25) ∧
      ((∀ ch ∈ [sample_chunk_t, sample_chunk_h], ch.chunk_id ≠ "") →
        build_allowed_facts [sample_chunk_t, sample_chunk_h] 0 1 [] 25
          = allowed_facts_spec [sample_chunk_t, sample_chunk_h] 0 1 [] 25)) :=
  ⟨by decide, build_allowed_facts_correct [sample_chunk_t, sample_chunk_h] 0 1 [] 25 (by decide)⟩

/-! ## C2: ledger invariant -/

theorem merge_ledger_fst_mem (chunks : List Chunk) (new_ids : List String) :
    ∀ (d e t : List String) (fid : String),
      fid ∈ (merge_ledger chunks new_ids (d, e, t)).1 → fid ∈ d ∨ fid ∈ new_ids := by
  induction new_ids with
  | nil =>
    intro d e t fid h
    exact Or.inl h
  | cons x rest ih =>
    intro d e t fid h
    unfold merge_ledger at h
    rw [List.foldl_cons] at h
    dsimp only at h
    by_cases hxd : x ∈ d
    · rw [if_pos hxd] at h
      cases hch : chunk_index_lookup chunks x with
      | none =>
        rw [hch] at h
        rcases ih d e t fid h with h1 | h1
        · exact Or.inl h1
        · exact Or.inr (List.mem_cons_of_mem _ h1)
      | some ch =>
        rw [hch] at h
        rcases ih d _ _ fid h with h1 | h1
        · exact Or.inl h1
        · exact Or.inr (List.mem_cons_of_mem _ h1)
    · rw [if_neg hxd] at h
      cases hch : chunk_index_lookup chunks x with
      | none =>
        rw [hch] at h
        rcases ih (d ++ [x]) e t fid h with h1 | h1
        · rcases List.mem_append.mp h1 with h2 | h2
          · exact Or.inl h2
          · rw [List.mem_singleton.mp h2]
            exact Or.inr (List.mem_cons_self x rest)
        · exact Or.inr (List.mem_cons_of_mem _ h1)
      | some ch =>
        rw [hch] at h
        rcases ih (d ++ [x]) _ _ fid h with h1 | h1
        · rcases List.mem_append.mp h1 with h2 | h2
          · exact Or.inl h2
          · rw [List.mem_singleton.mp h2]
            exact Or.inr (List.mem_cons_self x rest)
        · exact Or.inr (List.mem_cons_of_mem _ h1)

theorem build_allowed_facts_id_mem (chunks : List Chunk) (level visit_no : Int)
    (disclosed : List String) (max_facts : Int) (fid : String)
    (h : fid ∈ (build_allowed_facts chunks level visit_no disclosed max_facts).map
      (fun f => f.id)) :
    ∃ ch ∈ chunks, ch.chunk_id = fid ∧ ch.visit_no = visit_no ∧ fid ∉ disclosed := by
  obtain ⟨f, hf, hfe⟩ := List.mem_map.mp h
  obtain ⟨ch, hch, hpass, hfc⟩ := build_allowed_facts_mem _ _ _ _ _ f hf
  have hp := (chunk_passes_iff level visit_no disclosed ch).mp hpass
  have hid : ch.chunk_id = fid := by
    rw [← hfe, ← hfc]
    rfl
  exact ⟨ch, hch, hid, hp.2.2.1, hid ▸ hp.2.1⟩

theorem generate_preserves_msg (res : PatientResponse) (st : GraphState) :
    (generate_patient_response res st).last_doctor_message = st.last_doctor_message ∧
    (generate_patient_response res st).allowed_facts = st.allowed_facts ∧
    (generate_patient_response res st).disclosed_fact_ids = st.disclosed_fact_ids := by
  unfold generate_patient_response
  split <;> exact ⟨rfl, rfl, rfl⟩

/-- C2: for every reachable session state, every disclosed fact id in
the ledger is the id of a case chunk whose visit number is at most the
session's current visit number — future-visit facts never enter the
ledger. -/
theorem ledger_subset_unlocked_visits (chunks : List Chunk) (level k_facts : Int)
    (s : Int × List String) (h : ReachableLedger chunks level k_facts s) :
    ∀ fid ∈ s.2, ∃ ch ∈ chunks, ch.chunk_id = fid ∧ ch.visit_no ≤ s.1 := by
  induction h with
  | init =>
    intro fid hf
    simp at hf
  | @gen_turn v d diagSub res1 res2 regen followup case_type last_msg hprev ih =>
    intro fid hf
    unfold turn_disclosed_update at hf
    dsimp only at hf
    rcases merge_ledger_fst_mem chunks _ _ _ _ fid hf with h1 | h1
    · exact ih fid h1
    · by_cases hmsg : last_msg = ""
      · rw [hmsg] at h1
        simp [validate_response, validate_response_counted, generate_patient_response,
          gen_turn_state] at h1
      · have hst0 := generate_preserves_msg res1
          (gen_turn_state chunks level v k_facts case_type last_msg d)
        have hmsg1 : (generate_patient_response res1
            (gen_turn_state chunks level v k_facts case_type last_msg d)).last_doctor_message
            ≠ "" := by
          rw [hst0.1]
          exact hmsg
        have hm := validate_response_ids_mem diagSub res2 regen followup _ fid hmsg1 h1
        rw [hst0.2.1] at hm
        have hm2 : fid ∈ (build_allowed_facts chunks level v d k_facts).map
            (fun f => f.id) := hm.1
        obtain ⟨ch, hch, hid, hv, _⟩ := build_allowed_facts_id_mem chunks level v d k_facts
          fid hm2
        exact ⟨ch, hch, hid, le_of_eq hv⟩
  | @end_visit v d hprev ih =>
    intro fid hf
    obtain ⟨ch, hch, hid, hv⟩ := ih fid hf
    exact ⟨ch, hch, hid, by omega⟩

theorem ledger_subset_unlocked_visits_witness :
    ReachableLedger [sample_chunk_h] 0 25
      (1, turn_disclosed_update [sample_chunk_h] 0 1 25 (fun _ => none) sample_resp sample_resp
        true false ("") ("What happened?") []) ∧
    turn_disclosed_update [sample_chunk_h] 0 1 25 (fun _ => none) sample_resp sample_resp
      true false ("") ("What happened?") [] = ["c1"] ∧
    ∀ fid ∈ turn_disclosed_update [sample_chunk_h] 0 1 25 (fun _ => none) sample_resp sample_resp
        true false ("") ("What happened?") [],
      ∃ ch ∈ [sample_chunk_h], ch.chunk_id = fid ∧ ch.visit_no ≤ (1 : Int) :=
  ⟨ReachableLedger.gen_turn (fun _ => none) sample_resp sample_resp true false ("")
      ("What happened?") ReachableLedger.init,
    by decide,
    ledger_subset_unlocked_visits [sample_chunk_h] 0 25 _
      (ReachableLedger.gen_turn (fun _ => none) sample_resp sample_resp true false ("")
        ("What happened?") ReachableLedger.init)⟩

/-! ## C9: bounded regeneration -/

theorem apply_guardrails_strip_only_not_rejected (diagSub : String → Option String)
    (resp : PatientResponse) (facts : List PromptFact) (disc : List String) :
    (apply_guardrails diagSub resp facts disc ("strip_only")).rejected = false := by
  unfold apply_guardrails
  dsimp only
  rw [if_neg (fun hc => absurd hc.2 (by decide))]

theorem validate_response_counted_snd_le (diagSub : String → Option String)
    (res2 : PatientResponse) (regen_on_reject followup : Bool) (st : GraphState) :
    (validate_response_counted diagSub res2 regen_on_reject followup st).2 ≤ 1 := by
  unfold validate_response_counted
  split
  · simp
  · dsimp only
    split <;> simp

/-- C9: the Guardrail Validator requests at most one regeneration per
turn — with regeneration enabled, a first-pass policy violation leads
to exactly one extra collaborator call (two in total), otherwise there
is exactly one call; a strip-only pass never sets the rejection flag
(so it never requests another regeneration); and in every case the
generative collaborator is invoked at most twice in a single turn. -/
theorem turn_at_most_one_regeneration
    (diagSub : String → Option String) (res1 res2 : PatientResponse)
    (regen_on_reject followup : Bool) (st : GraphState) :
    turn_generative_calls diagSub res1 res2 regen_on_reject followup st ≤ 2 ∧
    (st.last_doctor_message ≠ "" → regen_on_reject = true →
      turn_generative_calls diagSub res1 res2 regen_on_reject followup st
        = (if (apply_guardrails diagSub (resp_of_state (generate_patient_response res1 st))
            (generate_patient_response res1 st).allowed_facts
            (generate_patient_response res1 st).disclosed_fact_ids
            ("reject_once_else_strip")).rejected = true then 2 else 1)) ∧
    (∀ (resp : PatientResponse) (facts : List PromptFact) (disc : List String),
      (apply_guardrails diagSub resp facts disc ("strip_only")).rejected = false) := by
  refine ⟨?_, ?_, fun resp facts disc =>
    apply_guardrails_strip_only_not_rejected diagSub resp facts disc⟩
  · unfold turn_generative_calls
    split
    · omega
    · have := validate_response_counted_snd_le diagSub res2 regen_on_reject followup
        (generate_patient_response res1 st)
      omega
  · intro hmsg hreg
    have hm1 : (generate_patient_response res1 st).last_doctor_message ≠ "" := by
      rw [(generate_preserves_msg res1 st).1]
      exact hmsg
    have hat : (generate_patient_response res1 st).llm_attempts = 1 := by
      unfold generate_patient_response
      rw [if_neg hmsg]
    unfold turn_generative_calls
    rw [if_neg hmsg]
    unfold validate_response_counted
    rw [if_neg hm1]
    dsimp only
    by_cases hrej : (apply_guardrails diagSub (resp_of_state (generate_patient_response res1 st))
        (generate_patient_response res1 st).allowed_facts
        (generate_patient_response res1 st).disclosed_fact_ids
        ("reject_once_else_strip")).rejected = true
    · rw [if_pos hrej, if_pos ⟨hrej, hreg, by rw [hat]; omega⟩]
      rfl
    · rw [if_neg hrej, if_neg (fun hc => hrej hc.1)]
      rfl

def sample_resp_bad : PatientResponse :=
  { patient_utterance := "Let me tell you everything.", new_disclosed_fact_ids := ["zz"],
    requested_clarifications := none, visit_end_recommendation := false, safety_flags := [] }

theorem turn_at_most_one_regeneration_witness :
    turn_generative_calls (fun _ => none) sample_resp_bad sample_resp true false
      (gen_turn_state [] 0 1 25 "" "hello" []) = 2 ∧
    turn_generative_calls (fun _ => none) sample_resp_bad sample_resp true false
      (gen_turn_state [] 0 1 25 "" "hello" []) ≤ 2 ∧
    (apply_guardrails (fun _ => none) sample_resp [] [] ("strip_only")).rejected = false :=
  ⟨by decide,
    (turn_at_most_one_regeneration (fun _ => none) sample_resp_bad sample_resp true false
      (gen_turn_state [] 0 1 25 "" "hello" [])).1,
    (turn_at_most_one_regeneration (fun _ => none) sample_resp_bad sample_resp true false
      (gen_turn_state [] 0 1 25 "" "hello" [])).2.2 sample_resp [] []⟩

/-! ## C5/C6: deterministic tool turns -/

theorem upsert_session_eq (db : DB) (v : Int) (t : Nat) (role content : String) :
    (upsert_turn_message db v t role content).session = db.session := by
  unfold upsert_turn_message
  cases h : get_turn_message db v t <;> rfl

theorem persist_turn_ledger_unchanged (chunks : List Chunk) (db : DB) (st : GraphState)
    (sess : SessionRow)
    (hsess : db.session = some sess)
    (hnew : st.new_disclosed_fact_ids = [])
    (hd : st.disclosed_fact_ids = sess.disclosed_fact_ids)
    (he : st.performed_exams = sess.performed_exams)
    (ht : st.performed_tests = sess.performed_tests) :
    ∃ sess2 : SessionRow, (persist_turn chunks db st).1.session = some sess2 ∧
      sess2.disclosed_fact_ids = sess.disclosed_fact_ids ∧
      sess2.performed_exams = sess.performed_exams ∧
      sess2.performed_tests = sess.performed_tests := by
  unfold persist_turn
  by_cases hmsg : st.last_doctor_message = ""
  · rw [if_pos hmsg]
    exact ⟨sess, hsess, rfl, rfl, rfl⟩
  · rw [if_neg hmsg]
    dsimp only
    split
    · exact ⟨sess, hsess, rfl, rfl, rfl⟩
    · rw [hnew]
      have hs2 : (upsert_turn_message
          (upsert_turn_message db st.visit_number (compute_turn_nos db st).2 ("doctor")
            st.last_doctor_message)
          st.visit_number ((compute_turn_nos db st).2 + 1) ("patient")
          st.patient_utterance).session = some sess := by
        rw [upsert_session_eq, upsert_session_eq, hsess]
      unfold update_ledger
      rw [hs2]
      unfold bump_turn
      dsimp only
      refine ⟨_, rfl, ?_, ?_, ?_⟩ <;> simp [merge_ledger, hd, he, ht]

theorem tool_precheck_test_denied (is_exam is_med : Bool) (case_doc : Option (List Chunk))
    (k_facts : Int) (st : GraphState)
    (hmsg : st.last_doctor_message ≠ "")
    (hnot : ("tests" : String) ∉ allowed_tools st.doctor_level st.visit_number) :
    (tool_precheck true is_exam is_med case_doc k_facts st).patient_utterance
      = "I\x27m sorry, that test isn\x27t permitted right now." ∧
    (tool_precheck true is_exam is_med case_doc k_facts st).should_call_llm = false ∧
    (tool_precheck true is_exam is_med case_doc k_facts st).llm_attempts = 0 ∧
    (tool_precheck true is_exam is_med case_doc k_facts st).new_disclosed_fact_ids = [] ∧
    (tool_precheck true is_exam is_med case_doc k_facts st).disclosed_fact_ids
      = st.disclosed_fact_ids ∧
    (tool_precheck true is_exam is_med case_doc k_facts st).performed_exams
      = st.performed_exams ∧
    (tool_precheck true is_exam is_med case_doc k_facts st).performed_tests
      = st.performed_tests ∧
    (tool_precheck true is_exam is_med case_doc k_facts st).last_doctor_message
      = st.last_doctor_message := by
  unfold tool_precheck
  rw [if_neg hmsg, if_pos rfl]
  unfold tool_precheck_finish
  dsimp only
  rw [if_neg hnot, if_pos rfl]
  unfold apply_test_tool_response
  dsimp only
  exact ⟨rfl, rfl, rfl, rfl, rfl, rfl, rfl, rfl⟩

/-- C5: at level 0, visit 1 the unlocked tools are exactly
`{history, exam}`, and a doctor message classified as a test request is
answered by the fixed denial utterance with `should_call_llm = false`
and a cleared attempt counter (so the generative collaborator is not
invoked), and the turn leaves the stored disclosure ledger unchanged. -/
theorem test_request_denied_at_level0_visit1
    (is_exam is_med : Bool) (case_doc : Option (List Chunk)) (k_facts : Int)
    (chunks : List Chunk) (db : DB) (sess : SessionRow) (st : GraphState)
    (hlev : st.doctor_level = 0) (hvisit : st.visit_number = 1)
    (hmsg : st.last_doctor_message ≠ "")
    (hsess : db.session = some sess)
    (hd : st.disclosed_fact_ids = sess.disclosed_fact_ids)
    (he : st.performed_exams = sess.performed_exams)
    (ht : st.performed_tests = sess.performed_tests) :
    allowed_tools 0 1 = ["history", "exam"] ∧
    (tool_precheck true is_exam is_med case_doc k_facts st).patient_utterance
      = "I\x27m sorry, that test isn\x27t permitted right now." ∧
    (tool_precheck true is_exam is_med case_doc k_facts st).should_call_llm = false ∧
    (tool_precheck true is_exam is_med case_doc k_facts st).llm_attempts = 0 ∧
    ∃ sess2 : SessionRow,
      (persist_turn chunks db (tool_precheck true is_exam is_med case_doc k_facts st)).1.session
        = some sess2 ∧
      sess2.disclosed_fact_ids = sess.disclosed_fact_ids ∧
      sess2.performed_exams = sess.performed_exams ∧
      sess2.performed_tests = sess.performed_tests := by
  have hnot : ("tests" : String) ∉ allowed_tools st.doctor_level st.visit_number := by
    rw [hlev, hvisit]
    decide
  have tp := tool_precheck_test_denied is_exam is_med case_doc k_facts st hmsg hnot
  refine ⟨by decide, tp.1, tp.2.1, tp.2.2.1, ?_⟩
  exact persist_turn_ledger_unchanged chunks db _ sess hsess tp.2.2.2.1
    (tp.2.2.2.2.1.trans hd) (tp.2.2.2.2.2.1.trans he) (tp.2.2.2.2.2.2.1.trans ht)

def c5_sess : SessionRow :=
  { visit_no := 1, turn_no := 0, disclosed_fact_ids := [],
    performed_exams := [], performed_tests := [] }

def c5_db : DB := { messages := [], session := some c5_sess }

def c5_state : GraphState :=
  gen_turn_state [sample_chunk_h, sample_chunk_t] 0 1 25 "" "Can we run a blood test?" []

theorem test_request_denied_at_level0_visit1_witness :
    (c5_state.doctor_level = 0 ∧ c5_state.visit_number = 1 ∧
      c5_state.last_doctor_message ≠ "" ∧ c5_db.session = some c5_sess ∧
      c5_state.disclosed_fact_ids = c5_sess.disclosed_fact_ids ∧
      c5_state.performed_exams = c5_sess.performed_exams ∧
      c5_state.performed_tests = c5_sess.performed_tests) ∧
    allowed_tools 0 1 = ["history", "exam"] ∧
    (tool_precheck true false false (some [sample_chunk_h, sample_chunk_t]) 25
        c5_state).patient_utterance
      = "I\x27m sorry, that test isn\x27t permitted right now." ∧
    (tool_precheck true false false (some [sample_chunk_h, sample_chunk_t]) 25
        c5_state).should_call_llm = false ∧
    (tool_precheck true false false (some [sample_chunk_h, sample_chunk_t]) 25
        c5_state).llm_attempts = 0 ∧
    ∃ sess2 : SessionRow,
      (persist_turn [sample_chunk_h, sample_chunk_t] c5_db
          (tool_precheck true false false (some [sample_chunk_h, sample_chunk_t]) 25
            c5_state)).1.session = some sess2 ∧
      sess2.disclosed_fact_ids = c5_sess.disclosed_fact_ids ∧
      sess2.performed_exams = c5_sess.performed_exams ∧
      sess2.performed_tests = c5_sess.performed_tests :=
  ⟨⟨by decide, by decide, by decide, by decide, by decide, by decide, by decide⟩,
    test_request_denied_at_level0_visit1 false false (some [sample_chunk_h, sample_chunk_t]) 25
      [sample_chunk_h, sample_chunk_t] c5_db c5_sess c5_state
      (by decide) (by decide) (by decide) (by decide) (by decide) (by decide) (by decide)⟩

theorem tool_precheck_test_allowed (is_exam is_med : Bool) (case_doc : Option (List Chunk))
    (k_facts : Int) (st : GraphState)
    (hmsg : st.last_doctor_message ≠ "")
    (hin : ("tests" : String) ∈ allowed_tools st.doctor_level st.visit_number)
    (hfact : st.allowed_facts.any (fun f => f.kind = "tests") = true) :
    (tool_precheck true is_exam is_med case_doc k_facts st).patient_utterance
      = "OK, I\x27ll get that test ordered and will get back with the results." ∧
    (tool_precheck true is_exam is_med case_doc k_facts st).should_call_llm = false ∧
    (tool_precheck true is_exam is_med case_doc k_facts st).llm_attempts = 0 ∧
    (tool_precheck true is_exam is_med case_doc k_facts st).new_disclosed_fact_ids = [] ∧
    (tool_precheck true is_exam is_med case_doc k_facts st).disclosed_fact_ids
      = st.disclosed_fact_ids ∧
    (tool_precheck true is_exam is_med case_doc k_facts st).performed_exams
      = st.performed_exams ∧
    (tool_precheck true is_exam is_med case_doc k_facts st).performed_tests
      = st.performed_tests ∧
    (tool_precheck true is_exam is_med case_doc k_facts st).last_doctor_message
      = st.last_doctor_message := by
  have hne : st.allowed_facts ≠ [] := by
    intro h
    rw [h] at hfact
    simp at hfact
  unfold tool_precheck
  rw [if_neg hmsg, if_pos rfl]
  unfold tool_precheck_finish
  dsimp only
  rw [if_pos hin, if_neg hne, hfact, if_pos rfl]
  unfold apply_test_tool_response
  dsimp only
  exact ⟨rfl, rfl, rfl, rfl, rfl, rfl, rfl, rfl⟩

def c6_state : GraphState :=
  gen_turn_state [sample_chunk_h, sample_chunk_t] 0 2 25 "" "Can we run a blood test?" []

def c6_sess : SessionRow :=
  { visit_no := 2, turn_no := 0, disclosed_fact_ids := [],
    performed_exams := [], performed_tests := [] }

def c6_db : DB := { messages := [], session := some c6_sess }

/-- C6 counterexample: at visit 2 with an available `tests` fact, the
doctor message "Can we run a blood test?" (a classified test request)
gets the fixed acknowledgement, but the `performed_tests` ledger does
NOT gain the normalized request text — the tool path discloses no fact
ids and `persist_turn` leaves `performed_tests` empty.  (The normalized
request text is only recorded by `disclosure.generate_patient_response`,
which the graph pipeline never calls.) -/
theorem test_request_visit2_performed_tests_counterexample :
    (tool_precheck true false false (some [sample_chunk_h, sample_chunk_t]) 25
        c6_state).patient_utterance
      = "OK, I\x27ll get that test ordered and will get back with the results." ∧
    normalize_text ("Can we run a blood test?") = "can we run a blood test?" ∧
    (persist_turn [sample_chunk_h, sample_chunk_t] c6_db
        (tool_precheck true false false (some [sample_chunk_h, sample_chunk_t]) 25
          c6_state)).2.performed_tests = [] ∧
    (normalize_text ("Can we run a blood test?")) ∉
      (persist_turn [sample_chunk_h, sample_chunk_t] c6_db
        (tool_precheck true false false (some [sample_chunk_h, sample_chunk_t]) 25
          c6_state)).2.performed_tests ∧
    (∀ sess2 : SessionRow,
      (persist_turn [sample_chunk_h, sample_chunk_t] c6_db
          (tool_precheck true false false (some [sample_chunk_h, sample_chunk_t]) 25
            c6_state)).1.session = some sess2 →
      sess2.performed_tests = []) := by
  decide

/-- C6 (amended: the fixed acknowledgement string is returned as the
patient utterance, and the `performed_tests` ledger is unchanged by the
turn — it does not gain the normalized request text; only disclosed
fact ids of kind `tests` would be mirrored there by `persist_turn`, and
the tool path discloses none). -/
theorem test_request_acknowledged_at_visit2
    (is_exam is_med : Bool) (case_doc : Option (List Chunk)) (k_facts : Int)
    (chunks : List Chunk) (db : DB) (sess : SessionRow) (st : GraphState)
    (hvisit : st.visit_number = 2)
    (hmsg : st.last_doctor_message ≠ "")
    (hsess : db.session = some sess)
    (hd : st.disclosed_fact_ids = sess.disclosed_fact_ids)
    (he : st.performed_exams = sess.performed_exams)
    (ht : st.performed_tests = sess.performed_tests)
    (hfact : st.allowed_facts.any (fun f => f.kind = "tests") = true) :
    (tool_precheck true is_exam is_med case_doc k_facts st).patient_utterance
      = "OK, I\x27ll get that test ordered and will get back with the results." ∧
    (tool_precheck true is_exam is_med case_doc k_facts st).should_call_llm = false ∧
    ∃ sess2 : SessionRow,
      (persist_turn chunks db (tool_precheck true is_exam is_med case_doc k_facts st)).1.session
        = some sess2 ∧
      sess2.performed_tests = sess.performed_tests ∧
      sess2.disclosed_fact_ids = sess.disclosed_fact_ids ∧
      sess2.performed_exams = sess.performed_exams := by
  have hin : ("tests" : String) ∈ allowed_tools st.doctor_level st.visit_number := by
    rw [hvisit]
    unfold allowed_tools
    dsimp only
    rw [if_pos (by omega)]
    decide
  have tp := tool_precheck_test_allowed is_exam is_med case_doc k_facts st hmsg hin hfact
  obtain ⟨sess2, hs2, hs2d, hs2e, hs2t⟩ := persist_turn_ledger_unchanged chunks db _ sess hsess
    tp.2.2.2.1 (tp.2.2.2.2.1.trans hd) (tp.2.2.2.2.2.1.trans he) (tp.2.2.2.2.2.2.1.trans ht)
  exact ⟨tp.1, tp.2.1, sess2, hs2, hs2t, hs2d, hs2e⟩

theorem test_request_acknowledged_at_visit2_witness :
    (c6_state.visit_number = 2 ∧ c6_state.last_doctor_message ≠ "" ∧
      c6_db.session = some c6_sess ∧
      c6_state.allowed_facts.any (fun f => f.kind = "tests") = true) ∧
    (tool_precheck true false false (some [sample_chunk_h, sample_chunk_t]) 25
        c6_state).patient_utterance
      = "OK, I\x27ll get that test ordered and will get back with the results." ∧
    (tool_precheck true false false (some [sample_chunk_h, sample_chunk_t]) 25
        c6_state).should_call_llm = false ∧
    ∃ sess2 : SessionRow,
      (persist_turn [sample_chunk_h, sample_chunk_t] c6_db
          (tool_precheck true false false (some [sample_chunk_h, sample_chunk_t]) 25
            c6_state)).1.session = some sess2 ∧
      sess2.performed_tests = [] ∧
      sess2.disclosed_fact_ids = [] ∧
      sess2.performed_exams = [] :=
  ⟨⟨by decide, by decide, by decide, by decide⟩,
    test_request_acknowledged_at_visit2 false false (some [sample_chunk_h, sample_chunk_t]) 25
      [sample_chunk_h, sample_chunk_t] c6_db c6_sess c6_state
      (by decide) (by decide) (by decide) (by decide) (by decide) (by decide) (by decide)⟩

/-! ## C7: viral-case follow-up rule -/

theorem strip_unsafe_mentions_ne_empty (diagSub : String → Option String) (text : String) :
    (strip_unsafe_mentions diagSub text).1 ≠ "" := by
  unfold strip_unsafe_mentions
  cases h : diagSub (py_strip text) <;> dsimp only <;> split
  · simp
  · rename_i hcond
    intro he
    exact hcond (Or.inl he)
  · simp
  · rename_i hcond
    intro he
    exact hcond (Or.inl he)

theorem apply_guardrails_utterance (diagSub : String → Option String) (resp : PatientResponse)
    (facts : List PromptFact) (disc : List String) (mode : String) :
    (apply_guardrails diagSub resp facts disc mode).patient_utterance
      = (strip_unsafe_mentions diagSub resp.patient_utterance).1 := by
  unfold apply_guardrails
  dsimp only
  split <;> rfl

theorem contains_sub_append_right (needle a b : List Char)
    (h : contains_sub needle b = true) : contains_sub needle (a ++ b) = true := by
  induction a with
  | nil => simpa using h
  | cons c rest ih =>
    rw [List.cons_append]
    unfold contains_sub
    rw [Bool.or_eq_true]
    exact Or.inr ih

theorem contains_thank_append_thanks (s : String) :
    contains_lower ("thank") (s ++ " Thanks.") = true := by
  unfold contains_lower lower_chars
  rw [String.data_append, List.map_append]
  exact contains_sub_append_right _ _ _ (by decide)

theorem viral_postprocess_spec (followup : Bool) (st : GraphState)
    (hviral : is_viral_case st.case_type = true) (hf : followup = true)
    (hne : st.patient_utterance ≠ "") :
    (viral_postprocess followup st).visit_end_recommendation = true ∧
    (contains_lower ("thank") (viral_postprocess followup st).patient_utterance = true ∨
      sentence_count (viral_postprocess followup st).patient_utterance ≥ 3) := by
  unfold viral_postprocess
  rw [if_pos ⟨hviral, hf⟩]
  dsimp only
  split
  all_goals split
  all_goals constructor
  · rfl
  · rename_i h1 h2
    unfold append_thanks
    split
    · rename_i hsc
      exact Or.inr hsc
    · exact Or.inl (contains_thank_append_thanks _)
  · rfl
  · rename_i h1 h2
    by_cases hth : contains_lower ("thank") st.patient_utterance = true
    · exact Or.inl hth
    · exact absurd ⟨hne, by simpa using hth⟩ h2
  · rename_i h1 h2
    simpa using h1
  · rename_i h1 h2
    unfold append_thanks
    split
    · rename_i hsc
      exact Or.inr hsc
    · exact Or.inl (contains_thank_append_thanks _)
  · rename_i h1 h2
    simpa using h1
  · rename_i h1 h2
    by_cases hth : contains_lower ("thank") st.patient_utterance = true
    · exact Or.inl hth
    · exact absurd ⟨hne, by simpa using hth⟩ h2

def c7_state : GraphState :=
  generate_patient_response
    { patient_utterance := "My fever is gone. I feel fine. I slept well.",
      new_disclosed_fact_ids := [], requested_clarifications := none,
      visit_end_recommendation := false, safety_flags := [] }
    (gen_turn_state [] 0 1 25 "viral" "Please come back next week for a follow up." [])

/-- C7 counterexample: a viral case and a follow-up doctor message
whose (guardrail-passed) utterance already has three sentences and no
thanks — the persisted `visit_end_recommendation` is forced true, but
the final utterance contains no gratitude clause, because
`_append_thanks` skips utterances with three or more sentences. -/
theorem viral_followup_thanks_counterexample :
    is_viral_case c7_state.case_type = true ∧
    (validate_response (fun _ => none) sample_resp true true c7_state).visit_end_recommendation
      = true ∧
    contains_lower ("thank")
      (validate_response (fun _ => none) sample_resp true true c7_state).patient_utterance
      = false := by
  decide

/-- C7 (amended: for a viral-tagged case and a doctor message matching
a follow-up pattern, the validated turn always has
`visit_end_recommendation = true`, and the utterance contains a
gratitude clause unless it already has at least three sentences — in
that case the thanks append is skipped). -/
theorem viral_followup_forces_visit_end
    (diagSub : String → Option String) (res2 : PatientResponse) (regen_on_reject : Bool)
    (st : GraphState)
    (hmsg : st.last_doctor_message ≠ "")
    (hviral : is_viral_case st.case_type = true) :
    (validate_response diagSub res2 regen_on_reject true st).visit_end_recommendation = true ∧
    (contains_lower ("thank")
        (validate_response diagSub res2 regen_on_reject true st).patient_utterance = true ∨
      sentence_count
        (validate_response diagSub res2 regen_on_reject true st).patient_utterance ≥ 3) := by
  unfold validate_response validate_response_counted
  rw [if_neg hmsg]
  dsimp only
  split
  · refine viral_postprocess_spec true _ hviral rfl ?_
    show (apply_guardrails diagSub (resp_of_state _) _ _ ("strip_only")).patient_utterance ≠ ""
    rw [apply_guardrails_utterance]
    exact strip_unsafe_mentions_ne_empty _ _
  · refine viral_postprocess_spec true _ hviral rfl ?_
    show (apply_guardrails diagSub (resp_of_state st) _ _
      ("reject_once_else_strip")).patient_utterance ≠ ""
    rw [apply_guardrails_utterance]
    exact strip_unsafe_mentions_ne_empty _ _

theorem viral_followup_forces_visit_end_witness :
    (c7_state.last_doctor_message ≠ "" ∧ is_viral_case c7_state.case_type = true) ∧
    (validate_response (fun _ => none) sample_resp true true c7_state).visit_end_recommendation
      = true ∧
    (contains_lower ("thank")
        (validate_response (fun _ => none) sample_resp true true c7_state).patient_utterance
        = true ∨
      sentence_count
        (validate_response (fun _ => none) sample_resp true true c7_state).patient_utterance
        ≥ 3) :=
  ⟨⟨by decide, by decide⟩,
    viral_followup_forces_visit_end (fun _ => none) sample_resp true c7_state
      (by decide) (by decide)⟩
